import Mathlib

/-!
Verification of the mail-service template-synchronization and dual-send
orchestration core (package `mail`, the variant with per-template
reconciliation and both sends active).

Go strings are modelled as Lean `String` (byte values become code points),
Go `*string` as `Option String`, Go errors as their message `String`, and
the provider (`sesClient`) as a record of response functions.  Each
embedded operation additionally returns the ordered list of provider calls
it issued, so that call-count and ordering properties can be stated.
-/

namespace MailSvc

/-- The `types.EmailTemplateContent` fields populated by this code
(`Subject` and `Html`; the pointer indirection is dropped). -/
structure EmailTemplateContent where
  Subject : String
  Html : String
  deriving Repr, DecidableEq

/-- `emailTemplate` — a wrapper holding a template name and its content. -/
structure emailTemplate where
  Name : String
  Content : EmailTemplateContent
  deriving Repr, DecidableEq

/-- Outcome classification of `GetEmailTemplate`: Go distinguishes a
`types.NotFoundException` (via `errors.As`) from any other error; each
carries a message. -/
inductive GetTemplateError where
  | notFound (msg : String)
  | other (msg : String)
  deriving Repr, DecidableEq

/-- The input of one `SendEmail` provider call: template name, serialized
template data, destination addresses and the from-address. -/
structure SendEmailInput where
  templateName : String
  templateData : String
  toAddresses : List String
  fromEmailAddress : String
  deriving Repr, DecidableEq

/-- One provider call, as recorded in an execution trace. -/
inductive SESCall where
  | getTemplate (name : String)
  | createTemplate (name : String) (content : EmailTemplateContent)
  | updateTemplate (name : String) (content : EmailTemplateContent)
  | sendEmail (input : SendEmailInput)
  deriving Repr, DecidableEq

/-- The provider client (`sesClient` interface): a deterministic oracle of
responses.  `sendEmail` takes the number of prior send calls in the same
execution, abstracting the stateful mock used by the repository's tests,
which pops a queue of per-call results. -/
structure SESClient where
  getEmailTemplate : String → Except GetTemplateError Unit
  createEmailTemplate : String → EmailTemplateContent → Except String Unit
  updateEmailTemplate : String → EmailTemplateContent → Except String Unit
  sendEmail : Nat → SendEmailInput → Except String Unit

/-- The `orchestrator` struct: ses client, forward address, from address,
the two templates, and the logger (an opaque handle; its `Info` side
effect is returned as a log trace by `SendMail`). -/
structure Orchestrator where
  ses : SESClient
  forwardEmail : String
  fromEmail : String
  thankYouTemplate : emailTemplate
  forwardTemplate : emailTemplate
  logger : Nat

/-- `mailservice_v1.SendMailRequest`: proto fields `name`, `email`,
`optional subject`, `message`. -/
structure SendMailRequest where
  Name : String
  Email : String
  Subject : Option String
  Message : String
  deriving Repr, DecidableEq

/-- `mailservice_v1.SendMailResponse`: the empty response message. -/
inductive SendMailResponse where
  | mk
  deriving Repr, DecidableEq

/-! ### Model of Go `encoding/json` marshalling of `map[string]string`

`json.Marshal` on a `map[string]string` sorts the keys ascending and
escapes each string with HTML escaping on; it cannot fail on such a map.
The keys used by this code are short ASCII literals, for which Go's
byte-wise key order coincides with the code-point order used here. -/

def hexDigit (n : Nat) : Char :=
  if n < 10 then Char.ofNat (48 + n) else Char.ofNat (87 + n)

def toHex4 (n : Nat) : List Char :=
  [hexDigit (n / 4096 % 16), hexDigit (n / 256 % 16), hexDigit (n / 16 % 16), hexDigit (n % 16)]

def jsonEscapeChar (c : Char) : List Char :=
  if c = '"' then ['\\', '"']
  else if c = '\\' then ['\\', '\\']
  else if c = '\n' then ['\\', 'n']
  else if c = '\r' then ['\\', 'r']
  else if c = '\t' then ['\\', 't']
  else if c = '<' ∨ c = '>' ∨ c = '&' ∨ c.toNat < 32 ∨ c.toNat = 0x2028 ∨ c.toNat = 0x2029 then
    '\\' :: 'u' :: toHex4 c.toNat
  else [c]

def jsonQuote (s : String) : String :=
  "\"" ++ String.mk (s.data.map jsonEscapeChar).flatten ++ "\""

def charListLt : List Char → List Char → Bool
  | [], [] => false
  | [], _ :: _ => true
  | _ :: _, [] => false
  | a :: as, b :: bs =>
    if a.toNat < b.toNat then true
    else if a.toNat = b.toNat then charListLt as bs
    else false

def strLt (a b : String) : Bool := charListLt a.data b.data

def insertSorted (p : String × String) : List (String × String) → List (String × String)
  | [] => [p]
  | q :: rest => if strLt p.1 q.1 then p :: q :: rest else q :: insertSorted p rest

def sortByKey (m : List (String × String)) : List (String × String) :=
  m.foldr insertSorted []

def jsonMarshalStringMap (m : List (String × String)) : String :=
  "\x7b" ++
    String.intercalate "," ((sortByKey m).map fun p => jsonQuote p.1 ++ ":" ++ jsonQuote p.2) ++
  "\x7d"

/-! ### Model of Go `encoding/base64` `StdEncoding.DecodeString`

Standard alphabet with mandatory padding; `\r` and `\n` are skipped;
any other character outside the alphabet, a misplaced `=`, data after
the padded final quantum, or an incomplete final quantum is an error. -/

def b64Val (c : Char) : Option Nat :=
  if 65 ≤ c.toNat ∧ c.toNat ≤ 90 then some (c.toNat - 65)
  else if 97 ≤ c.toNat ∧ c.toNat ≤ 122 then some (c.toNat - 97 + 26)
  else if 48 ≤ c.toNat ∧ c.toNat ≤ 57 then some (c.toNat - 48 + 52)
  else if c = '+' then some 62
  else if c = '/' then some 63
  else none

def base64DecodeGroups : List Char → Except String (List Nat)
  | [] => .ok []
  | a :: b :: c :: d :: rest =>
    match b64Val a, b64Val b with
    | some va, some vb =>
      if c = '=' then
        if d = '=' ∧ rest = [] then .ok [va * 4 + vb / 16]
        else .error "illegal base64 data"
      else
        match b64Val c with
        | some vc =>
          if d = '=' then
            if rest = [] then .ok [va * 4 + vb / 16, vb % 16 * 16 + vc / 4]
            else .error "illegal base64 data"
          else
            match b64Val d with
            | some vd =>
              match base64DecodeGroups rest with
              | .error e => .error e
              | .ok bs =>
                .ok ((va * 4 + vb / 16) :: (vb % 16 * 16 + vc / 4) :: (vc % 4 * 64 + vd) :: bs)
            | none => .error "illegal base64 data"
        | none => .error "illegal base64 data"
    | _, _ => .error "illegal base64 data"
  | _ => .error "illegal base64 data"

def base64Decode (s : String) : Except String String :=
  match base64DecodeGroups (s.data.filter fun c => ¬(c = '\r' ∨ c = '\n')) with
  | .error e => .error e
  | .ok bytes => .ok (String.mk (bytes.map Char.ofNat))

/-! ### The core operations, transcribed from the source -/

/-- `constructForwardTemplate`: base64-decode the configured body; on
success the template is named `ForwardTemplate` with the fixed subject. -/
def constructForwardTemplate (encodedTemplate : String) : Except String emailTemplate :=
  match base64Decode encodedTemplate with
  | .error e => .error ("failed to decode forward template: " ++ e)
  | .ok v =>
    .ok { Name := "ForwardTemplate"
          Content := { Subject := "Portfolio Contact Form Submission", Html := v } }

/-- `constructThankYouTemplate`: base64-decode the configured body; on
success the template is named `ThankYouTemplate` with the fixed subject. -/
def constructThankYouTemplate (encodedTemplate : String) : Except String emailTemplate :=
  match base64Decode encodedTemplate with
  | .error e => .error ("failed to decode thank you template: " ++ e)
  | .ok v =>
    .ok { Name := "ThankYouTemplate"
          Content := { Subject := "Thank you for your interest", Html := v } }

/-- `constructForwardTemplateData`: marshal the four-entry map; the nil
subject pointer is replaced by the default.  `json.Marshal` cannot fail on
a `map[string]string`, so the source's error branch is dead and the result
is always `ok`. -/
def constructForwardTemplateData (message name email : String) (subject : Option String) :
    Except String String :=
  let subject := subject.getD "Portfolio Contact Form Inquiry"
  .ok (jsonMarshalStringMap
    [("message", message), ("name", name), ("email", email), ("subject", subject)])

/-- `constructThankYouTemplateData`: marshal the single-entry map keyed
`name`; as above, marshalling cannot fail. -/
def constructThankYouTemplateData (name : String) : Except String String :=
  .ok (jsonMarshalStringMap [("name", name)])

/-- `initTemplate`: fetch the template by name; on a not-found error create
it, on any other fetch error abort, otherwise update it.  The second
component is the list of provider calls issued, in order. -/
def initTemplate (o : Orchestrator) (t : emailTemplate) : Except String Unit × List SESCall :=
  match o.ses.getEmailTemplate t.Name with
  | .error (.notFound _) =>
    match o.ses.createEmailTemplate t.Name t.Content with
    | .error e =>
      (.error ("failed to create email template with aws ses: " ++ e),
       [.getTemplate t.Name, .createTemplate t.Name t.Content])
    | .ok _ => (.ok (), [.getTemplate t.Name, .createTemplate t.Name t.Content])
  | .error (.other msg) =>
    (.error ("failed to initialize email template with aws ses: " ++ msg), [.getTemplate t.Name])
  | .ok _ =>
    match o.ses.updateEmailTemplate t.Name t.Content with
    | .error e =>
      (.error ("failed to update email template with aws ses: " ++ e),
       [.getTemplate t.Name, .updateTemplate t.Name t.Content])
    | .ok _ => (.ok (), [.getTemplate t.Name, .updateTemplate t.Name t.Content])

/-- The `Config` struct passed to `New`. -/
structure Config where
  SES : SESClient
  ForwardEmail : String
  FromEmail : String
  ForwardTemplateEncoded : String
  ThankYouTemplateEncoded : String
  Logger : Nat

/-- The orchestrator value `New` builds: in the source `o` is allocated
with the client, addresses and logger and its two template fields are then
assigned; this record literal is that final value. -/
def mkOrch (cfg : Config) (ft tt : emailTemplate) : Orchestrator :=
  { ses := cfg.SES, forwardEmail := cfg.ForwardEmail, fromEmail := cfg.FromEmail,
    forwardTemplate := ft, thankYouTemplate := tt, logger := cfg.Logger }

/-- `New`: decode the forward then the thank-you template (aborting on the
first decode failure), then reconcile the forward template, then the
thank-you template, aborting on the first reconciliation failure. -/
def New (cfg : Config) : Except String Orchestrator × List SESCall :=
  match constructForwardTemplate cfg.ForwardTemplateEncoded with
  | .error e => (.error e, [])
  | .ok ft =>
    match constructThankYouTemplate cfg.ThankYouTemplateEncoded with
    | .error e => (.error e, [])
    | .ok tt =>
      let o := mkOrch cfg ft tt
      match initTemplate o ft with
      | (.error e, calls) => (.error ("failed to initialize forward template: " ++ e), calls)
      | (.ok _, calls₁) =>
        match initTemplate o tt with
        | (.error e, calls₂) =>
          (.error ("failed to initialize thank you template: " ++ e), calls₁ ++ calls₂)
        | (.ok _, calls₂) => (.ok o, calls₁ ++ calls₂)

/-- The observable outcome of one `SendMail` call: the returned value or
error message, the provider calls issued, and the log lines emitted. -/
structure SendMailResult where
  result : Except String SendMailResponse
  calls : List SESCall
  logs : List String

/-- `SendMail`: build forward template data, issue the forward send (to the
forward address, from the from-address), log, build thank-you template data
from `req.Message` (the source passes the message, not the name, into the
`name` parameter of `constructThankYouTemplateData`), and issue the
thank-you send to `req.Email`.  The receiver is by value and never
reassigned; the returned orchestrator is the receiver after the body. -/
def SendMail (o : Orchestrator) (req : SendMailRequest) : SendMailResult × Orchestrator :=
  match constructForwardTemplateData req.Message req.Name req.Email req.Subject with
  | .error e =>
    ({ result := .error ("failed to prepare forward template data: " ++ e),
       calls := [], logs := [] }, o)
  | .ok forwardData =>
    let forwardInput : SendEmailInput :=
      { templateName := o.forwardTemplate.Name, templateData := forwardData,
        toAddresses := [o.forwardEmail], fromEmailAddress := o.fromEmail }
    match o.ses.sendEmail 0 forwardInput with
    | .error e =>
      ({ result := .error ("failed to send forward email: " ++ e),
         calls := [.sendEmail forwardInput], logs := [] }, o)
    | .ok _ =>
      let logs := ["Forward email sent to " ++ o.forwardEmail]
      match constructThankYouTemplateData req.Message with
      | .error e =>
        ({ result := .error ("failed to prepare thank you template data: " ++ e),
           calls := [.sendEmail forwardInput], logs := logs }, o)
      | .ok thankYouData =>
        let thankYouInput : SendEmailInput :=
          { templateName := o.thankYouTemplate.Name, templateData := thankYouData,
            toAddresses := [req.Email], fromEmailAddress := o.fromEmail }
        match o.ses.sendEmail 1 thankYouInput with
        | .error e =>
          ({ result := .error ("failed to send email thank you email: " ++ e),
             calls := [.sendEmail forwardInput, .sendEmail thankYouInput], logs := logs }, o)
        | .ok _ =>
          ({ result := .ok .mk,
             calls := [.sendEmail forwardInput, .sendEmail thankYouInput], logs := logs }, o)

/-! ### Trace predicates and a provider-state interpretation -/

/-- Whether a trace entry is a `CreateEmailTemplate` call. -/
def isCreateCall : SESCall → Bool
  | .createTemplate _ _ => true
  | _ => false

/-- Whether a trace entry is an `UpdateEmailTemplate` call. -/
def isUpdateCall : SESCall → Bool
  | .updateTemplate _ _ => true
  | _ => false

/-- Whether a trace entry is a `SendEmail` call. -/
def isSendCall : SESCall → Bool
  | .sendEmail _ => true
  | _ => false

/-- The serialized template data of a trace entry, when it is a send. -/
def sendDataOf : SESCall → Option String
  | .sendEmail inp => some inp.templateData
  | _ => none

/-- Substring check used to state claims about error-message tags. -/
def charsPfx : List Char → List Char → Bool
  | [], _ => true
  | _ :: _, [] => false
  | a :: as, b :: bs => a = b && charsPfx as bs

/-- Whether `pat` occurs as a contiguous run inside the second list. -/
def charsHaveSub (pat : List Char) : List Char → Bool
  | [] => charsPfx pat []
  | c :: rest => charsPfx pat (c :: rest) || charsHaveSub pat rest

/-- Whether `pat` occurs as a substring of `s`. -/
def strContainsSub (s pat : String) : Bool := charsHaveSub pat.data s.data

/-- Provider-side template storage: an association list from template name
to stored content. -/
def ProviderState := List (String × EmailTemplateContent)

/-- Look a template up in provider storage by name. -/
def lookupTemplate : List (String × EmailTemplateContent) → String → Option EmailTemplateContent
  | [], _ => none
  | (m, d) :: rest, n => if m = n then some d else lookupTemplate rest n

/-- Store a template, overwriting an existing entry of the same name. -/
def storeTemplate : List (String × EmailTemplateContent) → String → EmailTemplateContent →
    List (String × EmailTemplateContent)
  | [], n, c => [(n, c)]
  | (m, d) :: rest, n, c =>
    if m = n then (n, c) :: rest else (m, d) :: storeTemplate rest n c

/-- The effect of one recorded provider call on provider storage: create
and update both write the carried content under the carried name. -/
def applyCall (s : List (String × EmailTemplateContent)) :
    SESCall → List (String × EmailTemplateContent)
  | .createTemplate n c => storeTemplate s n c
  | .updateTemplate n c => storeTemplate s n c
  | _ => s

/-- A client backed by provider storage `s`: fetch succeeds exactly when
the template is stored, and fails with the not-found classification
otherwise; mutations are accepted. -/
def stateClient (s : List (String × EmailTemplateContent)) : SESClient :=
  { getEmailTemplate := fun n =>
      match lookupTemplate s n with
      | some _ => .ok ()
      | none => .error (.notFound "Template not found")
    createEmailTemplate := fun _ _ => .ok ()
    updateEmailTemplate := fun _ _ => .ok ()
    sendEmail := fun _ _ => .ok () }

/-- The zero `emailTemplate` value (the tests call `initTemplate` on it). -/
def zeroTemplate : emailTemplate := { Name := "", Content := { Subject := "", Html := "" } }

/-- An orchestrator holding a given client and zero values elsewhere,
mirroring the tests' `orchestrator` literals. -/
def orchWith (c : SESClient) : Orchestrator :=
  { ses := c, forwardEmail := "", fromEmail := "", forwardTemplate := zeroTemplate,
    thankYouTemplate := zeroTemplate, logger := 0 }

/-- Run one reconciliation of `t` against provider storage `s` and apply
the issued mutations to the storage. -/
def runReconcile (s : List (String × EmailTemplateContent)) (t : emailTemplate) :
    List (String × EmailTemplateContent) :=
  ((initTemplate (orchWith (stateClient s)) t).2).foldl applyCall s

/-! ### Concrete clients and inputs used to instantiate the theorems -/

/-- A client on which every provider operation succeeds. -/
def okClient : SESClient :=
  { getEmailTemplate := fun _ => .ok ()
    createEmailTemplate := fun _ _ => .ok ()
    updateEmailTemplate := fun _ _ => .ok ()
    sendEmail := fun _ _ => .ok () }

/-- A client whose fetch fails with the not-found classification. -/
def notFoundClient : SESClient :=
  { getEmailTemplate := fun _ => .error (.notFound "Template not found")
    createEmailTemplate := fun _ _ => .ok ()
    updateEmailTemplate := fun _ _ => .ok ()
    sendEmail := fun _ _ => .ok () }

/-- A client whose fetch fails with an error that is not not-found. -/
def otherClient (msg : String) : SESClient :=
  { getEmailTemplate := fun _ => .error (.other msg)
    createEmailTemplate := fun _ _ => .ok ()
    updateEmailTemplate := fun _ _ => .ok ()
    sendEmail := fun _ _ => .ok () }

/-- A client on which every send fails with message `e`. -/
def sendFailClient (e : String) : SESClient :=
  { getEmailTemplate := fun _ => .ok ()
    createEmailTemplate := fun _ _ => .ok ()
    updateEmailTemplate := fun _ _ => .ok ()
    sendEmail := fun _ _ => .error e }

/-- A client on which the first send succeeds and later sends fail. -/
def secondSendFailClient (e : String) : SESClient :=
  { getEmailTemplate := fun _ => .ok ()
    createEmailTemplate := fun _ _ => .ok ()
    updateEmailTemplate := fun _ _ => .ok ()
    sendEmail := fun i _ => match i with | 0 => .ok () | _ => .error e }

/-- A sample template. -/
def tmplA : emailTemplate := { Name := "A", Content := { Subject := "S", Html := "B" } }

/-- The submission of the spec's end-to-end sample. -/
def reqJohn : SendMailRequest :=
  { Name := "John Doe", Email := "john@example.com", Subject := none, Message := "hi" }

/-- A configuration whose forward template body is not valid base64. -/
def cfgBadForward : Config :=
  { SES := okClient, ForwardEmail := "fwd@x", FromEmail := "from@x",
    ForwardTemplateEncoded := "!", ThankYouTemplateEncoded := "", Logger := 0 }

/-- A configuration whose thank-you template body is not valid base64. -/
def cfgBadThankYou : Config :=
  { SES := okClient, ForwardEmail := "fwd@x", FromEmail := "from@x",
    ForwardTemplateEncoded := "", ThankYouTemplateEncoded := "!", Logger := 0 }

/-- A configuration whose provider fetch fails with a non-not-found error,
so the first reconciliation fails. -/
def cfgReconFail : Config :=
  { SES := otherClient "boom", ForwardEmail := "fwd@x", FromEmail := "from@x",
    ForwardTemplateEncoded := "", ThankYouTemplateEncoded := "", Logger := 0 }

/-- A configuration on which construction fully succeeds. -/
def cfgReconOk : Config :=
  { SES := okClient, ForwardEmail := "fwd@x", FromEmail := "from@x",
    ForwardTemplateEncoded := "", ThankYouTemplateEncoded := "", Logger := 0 }

/-- The forward template decoded from the empty configuration string. -/
def ftEmpty : emailTemplate :=
  { Name := "ForwardTemplate",
    Content := { Subject := "Portfolio Contact Form Submission", Html := "" } }

/-- The thank-you template decoded from the empty configuration string. -/
def ttEmpty : emailTemplate :=
  { Name := "ThankYouTemplate",
    Content := { Subject := "Thank you for your interest", Html := "" } }

/-! ### Claim theorems -/

/-- Claim C1: for every template, reconciliation issues exactly one
provider mutation determined by the fetch outcome: a successful fetch
yields exactly one update call carrying the local name and content and no
create call; a not-found fetch failure yields exactly one create call and
no update call. -/
theorem initTemplate_fetch_outcome_mutations (o : Orchestrator) (t : emailTemplate) :
    (o.ses.getEmailTemplate t.Name = .ok () →
      (initTemplate o t).2.filter isUpdateCall = [.updateTemplate t.Name t.Content] ∧
      (initTemplate o t).2.filter isCreateCall = []) ∧
    (∀ msg, o.ses.getEmailTemplate t.Name = .error (.notFound msg) →
      (initTemplate o t).2.filter isCreateCall = [.createTemplate t.Name t.Content] ∧
      (initTemplate o t).2.filter isUpdateCall = []) := by
  constructor
  · intro h
    cases hu : o.ses.updateEmailTemplate t.Name t.Content <;>
      simp [initTemplate, h, hu, isUpdateCall, isCreateCall, List.filter]
  · intro msg h
    cases hc : o.ses.createEmailTemplate t.Name t.Content <;>
      simp [initTemplate, h, hc, isUpdateCall, isCreateCall, List.filter]

/-- Witness for C1 at a concrete template against a client whose fetch
succeeds and one whose fetch reports not-found. -/
theorem initTemplate_fetch_outcome_mutations_witness :
    ((initTemplate (orchWith okClient) tmplA).2.filter isUpdateCall =
        [.updateTemplate tmplA.Name tmplA.Content] ∧
      (initTemplate (orchWith okClient) tmplA).2.filter isCreateCall = []) ∧
    ((initTemplate (orchWith notFoundClient) tmplA).2.filter isCreateCall =
        [.createTemplate tmplA.Name tmplA.Content] ∧
      (initTemplate (orchWith notFoundClient) tmplA).2.filter isUpdateCall = []) :=
  ⟨(initTemplate_fetch_outcome_mutations (orchWith okClient) tmplA).1 rfl,
   (initTemplate_fetch_outcome_mutations (orchWith notFoundClient) tmplA).2
     "Template not found" rfl⟩

/-- Claim C2: if the first provider send fails, SendMail returns an error
immediately and the provider's send method is invoked exactly once — the
thank-you send is never issued. -/
theorem sendMail_forward_failure_single_send (o : Orchestrator) (req : SendMailRequest)
    (e : String) (h : ∀ inp, o.ses.sendEmail 0 inp = .error e) :
    (SendMail o req).1.result = .error ("failed to send forward email: " ++ e) ∧
    ((SendMail o req).1.calls.filter isSendCall).length = 1 := by
  simp [SendMail, constructForwardTemplateData, h, isSendCall, List.filter]

/-- Witness for C2: a client failing every send with `boom`. -/
theorem sendMail_forward_failure_single_send_witness :
    (SendMail (orchWith (sendFailClient "boom")) reqJohn).1.result =
      .error ("failed to send forward email: " ++ "boom") ∧
    ((SendMail (orchWith (sendFailClient "boom")) reqJohn).1.calls.filter isSendCall).length = 1 :=
  sendMail_forward_failure_single_send (orchWith (sendFailClient "boom")) reqJohn "boom"
    fun _ => rfl

/-- Claim C6 (amended): a fetch failure that is not not-found issues
neither a create nor an update call, and the returned error wraps the
provider's fetch error under the tag
`failed to initialize email template with aws ses`. -/
theorem initTemplate_other_error_no_mutation (o : Orchestrator) (t : emailTemplate)
    (msg : String) (h : o.ses.getEmailTemplate t.Name = .error (.other msg)) :
    initTemplate o t =
      (.error ("failed to initialize email template with aws ses: " ++ msg),
       [.getTemplate t.Name]) ∧
    (initTemplate o t).2.filter isCreateCall = [] ∧
    (initTemplate o t).2.filter isUpdateCall = [] := by
  simp [initTemplate, h, isCreateCall, isUpdateCall, List.filter]

/-- Witness for the amended C6 at a concrete fetch error `boom`. -/
theorem initTemplate_other_error_no_mutation_witness :
    initTemplate (orchWith (otherClient "boom")) zeroTemplate =
      (.error ("failed to initialize email template with aws ses: " ++ "boom"),
       [.getTemplate zeroTemplate.Name]) ∧
    (initTemplate (orchWith (otherClient "boom")) zeroTemplate).2.filter isCreateCall = [] ∧
    (initTemplate (orchWith (otherClient "boom")) zeroTemplate).2.filter isUpdateCall = [] :=
  initTemplate_other_error_no_mutation (orchWith (otherClient "boom")) zeroTemplate "boom" rfl

/-- Counterexample to C6 as stated: at a concrete non-not-found fetch
error, the error the code returns does not carry the literal tag
`lookup failed` anywhere in its message. -/
theorem initTemplate_lookup_tag_counterexample :
    (initTemplate (orchWith (otherClient "boom")) zeroTemplate).1 =
      .error "failed to initialize email template with aws ses: boom" ∧
    strContainsSub "failed to initialize email template with aws ses: boom" "lookup failed"
      = false :=
  ⟨rfl, by decide⟩

/-- Claim C7 (amended): each send failure is wrapped under the stable tag
the code actually uses — `failed to send forward email` for the forward
step and `failed to send email thank you email` for the thank-you step —
with the provider error's message appended. -/
theorem sendMail_error_step_tags (o : Orchestrator) (req : SendMailRequest) (e : String) :
    ((∀ inp, o.ses.sendEmail 0 inp = .error e) →
      (SendMail o req).1.result = .error ("failed to send forward email: " ++ e)) ∧
    ((∀ inp, o.ses.sendEmail 0 inp = .ok ()) → (∀ inp, o.ses.sendEmail 1 inp = .error e) →
      (SendMail o req).1.result = .error ("failed to send email thank you email: " ++ e)) := by
  constructor
  · intro h
    simp [SendMail, constructForwardTemplateData, h]
  · intro h₀ h₁
    simp [SendMail, constructForwardTemplateData, constructThankYouTemplateData, h₀, h₁]

/-- Witness for the amended C7: forward failure `boom` and thank-you
failure `boom2` at concrete clients. -/
theorem sendMail_error_step_tags_witness :
    (SendMail (orchWith (sendFailClient "boom")) reqJohn).1.result =
      .error ("failed to send forward email: " ++ "boom") ∧
    (SendMail (orchWith (secondSendFailClient "boom2")) reqJohn).1.result =
      .error ("failed to send email thank you email: " ++ "boom2") :=
  ⟨(sendMail_error_step_tags (orchWith (sendFailClient "boom")) reqJohn "boom").1
      fun _ => rfl,
   (sendMail_error_step_tags (orchWith (secondSendFailClient "boom2")) reqJohn "boom2").2
      (fun _ => rfl) (fun _ => rfl)⟩

/-- Counterexample to C7 as stated: when the forward send fails with
provider error `boom`, the returned message contains `boom` but does not
contain the claimed tag `forward email send failed`. -/
theorem sendMail_forward_tag_counterexample :
    (SendMail (orchWith (sendFailClient "boom")) reqJohn).1.result =
      .error "failed to send forward email: boom" ∧
    strContainsSub "failed to send forward email: boom" "boom" = true ∧
    strContainsSub "failed to send forward email: boom" "forward email send failed" = false :=
  ⟨rfl, by decide, by decide⟩

/-- Claim C3 (code evaluated at the failing input): on the submission with
name `John Doe` and message `hi`, both sends succeeding, the thank-you
send's payload is the serialization keyed `name` of the submission's
message — not of its name. -/
theorem sendMail_thankYou_payload_uses_message :
    ((SendMail (orchWith okClient) reqJohn).1.calls.map sendDataOf)[1]? =
      some (some (jsonMarshalStringMap [("name", reqJohn.Message)])) ∧
    jsonMarshalStringMap [("name", reqJohn.Message)] ≠
      jsonMarshalStringMap [("name", reqJohn.Name)] :=
  ⟨by decide, by decide⟩

/-- Claim C5: the forward send is always the first provider call, its
payload is the serialization of the message/name/email/subject mapping
taken from the submission with the default subject substituted when the
optional subject is absent, its destination is the configured forward
address and its sender the configured from-address. -/
theorem sendMail_forward_input_first (o : Orchestrator) (req : SendMailRequest) :
    (SendMail o req).1.calls.head? = some (.sendEmail
      { templateName := o.forwardTemplate.Name
        templateData := jsonMarshalStringMap
          [("message", req.Message), ("name", req.Name), ("email", req.Email),
           ("subject", req.Subject.getD "Portfolio Contact Form Inquiry")]
        toAddresses := [o.forwardEmail]
        fromEmailAddress := o.fromEmail }) := by
  cases h₀ : o.ses.sendEmail 0
      { templateName := o.forwardTemplate.Name
        templateData := jsonMarshalStringMap
          [("message", req.Message), ("name", req.Name), ("email", req.Email),
           ("subject", req.Subject.getD "Portfolio Contact Form Inquiry")]
        toAddresses := [o.forwardEmail]
        fromEmailAddress := o.fromEmail } with
  | error e => simp [SendMail, constructForwardTemplateData, h₀]
  | ok u =>
    cases h₁ : o.ses.sendEmail 1
        { templateName := o.thankYouTemplate.Name
          templateData := jsonMarshalStringMap [("name", req.Message)]
          toAddresses := [req.Email]
          fromEmailAddress := o.fromEmail } with
    | error e =>
      simp [SendMail, constructForwardTemplateData, constructThankYouTemplateData, h₀, h₁]
    | ok v =>
      simp [SendMail, constructForwardTemplateData, constructThankYouTemplateData, h₀, h₁]

/-- Claim C10: SendMail leaves the orchestrator unchanged — the receiver
value returned after the body equals the input in every field, so two
calls observe identical configuration. -/
theorem sendMail_preserves_orchestrator (o : Orchestrator) (req : SendMailRequest) :
    (SendMail o req).2 = o ∧
    ((SendMail o req).2.ses = o.ses ∧
     (SendMail o req).2.forwardEmail = o.forwardEmail ∧
     (SendMail o req).2.fromEmail = o.fromEmail ∧
     (SendMail o req).2.forwardTemplate = o.forwardTemplate ∧
     (SendMail o req).2.thankYouTemplate = o.thankYouTemplate ∧
     (SendMail o req).2.logger = o.logger) := by
  have h : (SendMail o req).2 = o := by
    simp only [SendMail, constructForwardTemplateData, constructThankYouTemplateData]
    repeat' split
    all_goals rfl
  exact ⟨h, by rw [h], by rw [h], by rw [h], by rw [h], by rw [h], by rw [h]⟩

/-- Claim C4: construction reconciles the forward template first and the
thank-you template second; if the forward reconciliation fails, New
returns the tagged error, the issued calls are exactly the forward
reconciliation's calls (the thank-you reconciliation is never attempted),
and no orchestrator is returned; on forward success the trace is the
forward reconciliation's calls followed by the thank-you ones. -/
theorem new_reconcile_order_abort (cfg : Config) (ft tt : emailTemplate)
    (hf : constructForwardTemplate cfg.ForwardTemplateEncoded = .ok ft)
    (ht : constructThankYouTemplate cfg.ThankYouTemplateEncoded = .ok tt) :
    (∀ e, (initTemplate (mkOrch cfg ft tt) ft).1 = .error e →
      New cfg = (.error ("failed to initialize forward template: " ++ e),
        (initTemplate (mkOrch cfg ft tt) ft).2)) ∧
    ((initTemplate (mkOrch cfg ft tt) ft).1 = .ok () →
      (New cfg).2 =
        (initTemplate (mkOrch cfg ft tt) ft).2 ++ (initTemplate (mkOrch cfg ft tt) tt).2) := by
  constructor
  · intro e he
    rcases hp : initTemplate (mkOrch cfg ft tt) ft with ⟨r₁, c₁⟩
    rw [hp] at he
    simp only at he
    subst he
    simp [New, hf, ht, hp]
  · intro hok
    rcases hp : initTemplate (mkOrch cfg ft tt) ft with ⟨r₁, c₁⟩
    rw [hp] at hok
    simp only at hok
    subst hok
    rcases hq : initTemplate (mkOrch cfg ft tt) tt with ⟨r₂, c₂⟩
    cases r₂ <;> simp [New, hf, ht, hp, hq]

/-- Witness for C4: a failing forward reconciliation aborts with the
forward tag after one fetch call, and a succeeding construction issues the
two reconciliations' calls in order. -/
theorem new_reconcile_order_abort_witness :
    New cfgReconFail =
      (.error ("failed to initialize forward template: " ++
        "failed to initialize email template with aws ses: boom"),
       (initTemplate (mkOrch cfgReconFail ftEmpty ttEmpty) ftEmpty).2) ∧
    (New cfgReconOk).2 =
      (initTemplate (mkOrch cfgReconOk ftEmpty ttEmpty) ftEmpty).2 ++
        (initTemplate (mkOrch cfgReconOk ftEmpty ttEmpty) ttEmpty).2 :=
  ⟨(new_reconcile_order_abort cfgReconFail ftEmpty ttEmpty rfl rfl).1
      "failed to initialize email template with aws ses: boom" rfl,
   (new_reconcile_order_abort cfgReconOk ftEmpty ttEmpty rfl rfl).2 rfl⟩

/-- Claim C8: a base64 decode failure of either configured template body
aborts construction immediately with an error naming the template that
failed, before any provider call; the empty string decodes to an empty
template body without error. -/
theorem new_decode_failure_and_empty (cfg : Config) :
    (∀ e, base64Decode cfg.ForwardTemplateEncoded = .error e →
      New cfg = (.error ("failed to decode forward template: " ++ e), [])) ∧
    (∀ v e, base64Decode cfg.ForwardTemplateEncoded = .ok v →
      base64Decode cfg.ThankYouTemplateEncoded = .error e →
      New cfg = (.error ("failed to decode thank you template: " ++ e), [])) ∧
    base64Decode "" = .ok "" ∧
    constructForwardTemplate "" = .ok ftEmpty ∧
    constructThankYouTemplate "" = .ok ttEmpty := by
  refine ⟨?_, ?_, rfl, rfl, rfl⟩
  · intro e he
    simp [New, constructForwardTemplate, he]
  · intro v e hv he
    simp [New, constructForwardTemplate, constructThankYouTemplate, hv, he]

/-- Witness for C8: the invalid body `!` aborts construction for each
template position, with no provider calls. -/
theorem new_decode_failure_and_empty_witness :
    New cfgBadForward =
      (.error ("failed to decode forward template: " ++ "illegal base64 data"), []) ∧
    New cfgBadThankYou =
      (.error ("failed to decode thank you template: " ++ "illegal base64 data"), []) :=
  ⟨(new_decode_failure_and_empty cfgBadForward).1 "illegal base64 data" rfl,
   (new_decode_failure_and_empty cfgBadThankYou).2.1 "" "illegal base64 data" rfl rfl⟩

/-- Storing the same binding twice is the same as storing it once. -/
theorem storeTemplate_idem (s : List (String × EmailTemplateContent))
    (n : String) (c : EmailTemplateContent) :
    storeTemplate (storeTemplate s n c) n c = storeTemplate s n c := by
  induction s with
  | nil => simp [storeTemplate]
  | cons p rest ih =>
    obtain ⟨m, d⟩ := p
    by_cases hm : m = n <;> simp [storeTemplate, hm, ih]

/-- After storing a binding, looking its name up returns its content. -/
theorem lookupTemplate_store (s : List (String × EmailTemplateContent))
    (n : String) (c : EmailTemplateContent) :
    lookupTemplate (storeTemplate s n c) n = some c := by
  induction s with
  | nil => simp [storeTemplate, lookupTemplate]
  | cons p rest ih =>
    obtain ⟨m, d⟩ := p
    by_cases hm : m = n <;> simp [storeTemplate, lookupTemplate, hm, ih]

/-- One reconciliation against provider storage stores exactly the local
template's name and content, through either branch. -/
theorem runReconcile_eq_store (s : List (String × EmailTemplateContent)) (t : emailTemplate) :
    runReconcile s t = storeTemplate s t.Name t.Content := by
  unfold runReconcile
  cases h : lookupTemplate s t.Name <;>
    simp [initTemplate, orchWith, stateClient, h, applyCall, List.foldl]

/-- Claim C9: every mutation reconcile issues carries exactly the local
template's name and content, in the create branch and the update branch
alike; hence reconciliation of provider storage is idempotent, and storage
afterwards holds the local content under the template's name. -/
theorem initTemplate_mutation_content_idempotent :
    (∀ (o : Orchestrator) (t : emailTemplate), ∀ c ∈ (initTemplate o t).2,
      (isCreateCall c = true → c = .createTemplate t.Name t.Content) ∧
      (isUpdateCall c = true → c = .updateTemplate t.Name t.Content)) ∧
    (∀ (s : List (String × EmailTemplateContent)) (t : emailTemplate),
      runReconcile (runReconcile s t) t = runReconcile s t) ∧
    (∀ (s : List (String × EmailTemplateContent)) (t : emailTemplate),
      lookupTemplate (runReconcile s t) t.Name = some t.Content) := by
  refine ⟨?_, ?_, ?_⟩
  · intro o t c hc
    cases hg : o.ses.getEmailTemplate t.Name with
    | ok u =>
      cases hu : o.ses.updateEmailTemplate t.Name t.Content <;>
        · simp [initTemplate, hg, hu] at hc
          rcases hc with hc | hc <;> subst hc <;> simp [isCreateCall, isUpdateCall]
    | error ge =>
      cases ge with
      | notFound m =>
        cases hcr : o.ses.createEmailTemplate t.Name t.Content <;>
          · simp [initTemplate, hg, hcr] at hc
            rcases hc with hc | hc <;> subst hc <;> simp [isCreateCall, isUpdateCall]
      | other m =>
        simp [initTemplate, hg] at hc
        subst hc
        simp [isCreateCall, isUpdateCall]
  · intro s t
    rw [runReconcile_eq_store s t, runReconcile_eq_store, storeTemplate_idem]
  · intro s t
    rw [runReconcile_eq_store]
    exact lookupTemplate_store s t.Name t.Content

/-- Witness for C9 at a concrete template: the update call recorded by a
reconcile whose fetch succeeds carries the local name and content, and a
double reconcile of empty storage equals a single one, which stores the
template. -/
theorem initTemplate_mutation_content_idempotent_witness :
    ((isCreateCall (.updateTemplate tmplA.Name tmplA.Content) = true →
        SESCall.updateTemplate tmplA.Name tmplA.Content =
          .createTemplate tmplA.Name tmplA.Content) ∧
      (isUpdateCall (.updateTemplate tmplA.Name tmplA.Content) = true →
        SESCall.updateTemplate tmplA.Name tmplA.Content =
          .updateTemplate tmplA.Name tmplA.Content)) ∧
    runReconcile (runReconcile [] tmplA) tmplA = runReconcile [] tmplA ∧
    lookupTemplate (runReconcile [] tmplA) tmplA.Name = some tmplA.Content :=
  ⟨initTemplate_mutation_content_idempotent.1 (orchWith okClient) tmplA
      (.updateTemplate tmplA.Name tmplA.Content) (by decide),
   initTemplate_mutation_content_idempotent.2.1 [] tmplA,
   initTemplate_mutation_content_idempotent.2.2 [] tmplA⟩

end MailSvc
